import Mathlib

/-!
Verification of the report-parsing / aggregation / filtering core of the
OpenWrt test dashboard (`src/js/devices.js`) via a shallow embedding.

The XML DOM that `DOMParser` produces is modelled as a tree (`XNode`);
`parseTestReport`, `updateStats`, `filterDevices` and the per-device part of
`loadDevices` are translated from `src/js/devices.js`.  JavaScript numbers
that can be `NaN` (results of `parseInt` / `parseFloat` on garbage) are
modelled as `Option Int` (`none` = NaN) and `JsFloat`; JavaScript string
truthiness and `||` defaulting are modelled explicitly.
-/

/-- A node of a parsed XML document: an element with a tag, an attribute
list and child nodes in document order, or a text node. -/
inductive XNode where
  | elem (tag : String) (attrs : List (String × String)) (children : List XNode)
  | text (s : String)
deriving Repr

/-- Attribute lookup, as DOM `getAttribute`: the value of the first
attribute with the given name, or `none` (JS `null`) when absent. -/
def getAttr (attrs : List (String × String)) (a : String) : Option String :=
  (attrs.find? (fun p => p.1 = a)).map (fun p => p.2)

/-- `getAttribute` on a node (text nodes have no attributes). -/
def nodeAttr (n : XNode) (a : String) : Option String :=
  match n with
  | .elem _ attrs _ => getAttr attrs a
  | .text _ => none

/-- Child nodes of a node. -/
def nodeChildren (n : XNode) : List XNode :=
  match n with
  | .elem _ _ ch => ch
  | .text _ => []

mutual
/-- All elements with the given tag in the subtree rooted at `n`, the root
included, in document (depth-first pre-) order — the order
`querySelectorAll` uses. -/
def collectElems (t : String) : XNode → List XNode
  | .elem tag attrs ch =>
      (if tag = t then [XNode.elem tag attrs ch] else []) ++ collectElemsL t ch
  | .text _ => []
/-- `collectElems` over a forest, left to right. -/
def collectElemsL (t : String) : List XNode → List XNode
  | [] => []
  | c :: cs => collectElems t c ++ collectElemsL t cs
end

/-- `document.querySelector(t)`: the first element with tag `t` in document
order, searching the whole tree including the root. -/
def docQuerySelector (t : String) (doc : XNode) : Option XNode :=
  (collectElems t doc).head?

/-- `element.querySelector(t)`: the first element with tag `t` among the
strict descendants of `n` (an element never matches itself). -/
def elemQuerySelector (t : String) (n : XNode) : Option XNode :=
  (collectElemsL t (nodeChildren n)).head?

mutual
/-- DOM `textContent`: the concatenation of all text descendants in
document order. -/
def xText : XNode → String
  | .elem _ _ ch => xTextL ch
  | .text s => s
/-- `textContent` of a forest. -/
def xTextL : List XNode → String
  | [] => ""
  | c :: cs => xText c ++ xTextL cs
end

/-- JS `String.prototype.trim`: strip whitespace from both ends. -/
def jsTrim (s : String) : String :=
  String.mk (((s.data.dropWhile Char.isWhitespace).reverse.dropWhile Char.isWhitespace).reverse)

/-- JS `String.prototype.toLowerCase` (on the ASCII range, which covers
device identifiers and search input). -/
def jsToLower (s : String) : String :=
  String.mk (s.data.map Char.toLower)

/-- JS `a || d` for a nullable string `a`: the default `d` is used when `a`
is `null` or the empty string (both falsy). -/
def stringOrDefault (o : Option String) (d : String) : String :=
  match o with
  | none => d
  | some s => if s = "" then d else s

/-- A JS number known to be the result of `parseInt`: either an integer or
NaN (`none`).  (Real JS numbers are doubles; counts in the reports are
small integers, which doubles represent exactly.) -/
abbrev JsInt := Option Int

/-- JS `+` on such numbers: NaN propagates. -/
def jsAdd (a b : JsInt) : JsInt :=
  match a, b with
  | some x, some y => some (x + y)
  | _, _ => none

/-- JS `-` on such numbers: NaN propagates. -/
def jsSub (a b : JsInt) : JsInt :=
  match a, b with
  | some x, some y => some (x - y)
  | _, _ => none

/-- JS `x > 0` on such a number: false for NaN. -/
def jsGt0 (a : JsInt) : Bool :=
  match a with
  | some x => 0 < x
  | none => false

/-- A JS number produced by `parseFloat`: NaN, a signed infinity, or a
finite value.  Finite values are modelled exactly as rationals (the real
engine rounds decimal literals to binary doubles; none of the verified
properties depend on that rounding). -/
inductive JsFloat where
  | nan
  | inf (neg : Bool)
  | num (q : Rat)
deriving Repr, DecidableEq

/-- Digit string to number, base 10. -/
def digitsVal (l : List Char) : Nat :=
  l.foldl (fun a c => a * 10 + (c.toNat - 48)) 0

/-- Digit string to number, base 16. -/
def hexDigitsVal (l : List Char) : Nat :=
  l.foldl (fun a c =>
    a * 16 +
      (if c.isDigit then c.toNat - 48
       else if 'a' ≤ c ∧ c ≤ 'f' then c.toNat - 87
       else c.toNat - 55)) 0

/-- Is `c` a hexadecimal digit? -/
def isHexDigit (c : Char) : Bool :=
  c.isDigit || ('a' ≤ c && c ≤ 'f') || ('A' ≤ c && c ≤ 'F')

/-- ECMAScript `parseInt(s)` (radix unspecified): skip leading whitespace,
optional sign, `0x`/`0X` switches to base 16, then the longest run of
digits; NaN (`none`) when that run is empty. -/
def jsParseInt (s : String) : JsInt :=
  let cs := s.data.dropWhile Char.isWhitespace
  let (neg, cs) :=
    match cs with
    | '-' :: rest => (true, rest)
    | '+' :: rest => (false, rest)
    | _ => (false, cs)
  let (hex, cs) :=
    match cs with
    | '0' :: 'x' :: rest => (true, rest)
    | '0' :: 'X' :: rest => (true, rest)
    | _ => (false, cs)
  let digits := cs.takeWhile (fun c => if hex then isHexDigit c else c.isDigit)
  if digits.isEmpty then none
  else
    let v : Int := Int.ofNat (if hex then hexDigitsVal digits else digitsVal digits)
    some (if neg then -v else v)

/-- ECMAScript `parseFloat(s)`: skip leading whitespace, optional sign,
`Infinity`, or the longest prefix shaped `digits [. digits] [e sign
digits]` with at least one digit before the exponent; NaN when there is no
such prefix. -/
def jsParseFloat (s : String) : JsFloat :=
  let cs := s.data.dropWhile Char.isWhitespace
  let (neg, cs) :=
    match cs with
    | '-' :: rest => (true, rest)
    | '+' :: rest => (false, rest)
    | _ => (false, cs)
  if "Infinity".data.isPrefixOf cs then JsFloat.inf neg
  else
    let ip := cs.takeWhile Char.isDigit
    let cs1 := cs.dropWhile Char.isDigit
    let (fp, cs2) :=
      match cs1 with
      | '.' :: rest => (rest.takeWhile Char.isDigit, rest.dropWhile Char.isDigit)
      | _ => ([], cs1)
    if ip.isEmpty ∧ fp.isEmpty then JsFloat.nan
    else
      let e : Int :=
        match cs2 with
        | 'e' :: rest => jsExp rest
        | 'E' :: rest => jsExp rest
        | _ => 0
      let n : Nat := digitsVal ip * 10 ^ fp.length + digitsVal fp
      let v : Rat :=
        match e with
        | .ofNat k => mkRat (Int.ofNat (n * 10 ^ k)) (10 ^ fp.length)
        | .negSucc k => mkRat (Int.ofNat n) (10 ^ fp.length * 10 ^ (k + 1))
      JsFloat.num (if neg then -v else v)
where
  /-- The exponent after `e`/`E`: optional sign then digits; an exponent
  with no digits is not part of the parsed prefix, contributing 0. -/
  jsExp (cs : List Char) : Int :=
    let (eneg, cs) :=
      match cs with
      | '-' :: rest => (true, rest)
      | '+' :: rest => (false, rest)
      | _ => (false, cs)
    let ds := cs.takeWhile Char.isDigit
    if ds.isEmpty then 0
    else if eneg then -(digitsVal ds : Int) else (digitsVal ds : Int)

/-- One parsed test case, as built by `parseTestReport`.  `message` is
`some a` when the field was assigned (with `a` the marker's `message`
attribute, itself nullable) and `none` when never assigned (passed case);
`details` is `some s` when the field was assigned. -/
structure TestCase where
  classname : Option String
  name : Option String
  time : JsFloat
  status : String
  message : Option (Option String) := none
  details : Option String := none
deriving Repr, DecidableEq

/-- A parsed test report, as built by `parseTestReport`.
`firmware_version` is `some v` when the field was assigned (with `v` the
property's nullable `value` attribute) and `none` when never assigned. -/
structure TestReport where
  tests : JsInt
  failures : JsInt
  errors : JsInt
  skipped : JsInt
  time : JsFloat
  timestamp : Option String
  firmware_version : Option (Option String) := none
  passed : JsInt
  testcases : List TestCase
deriving Repr, DecidableEq

/-- The per-`<testcase>` body of `parseTestReport` (`devices.js` 121-145):
attributes, then the `failure` / `error` / `skipped` marker chain. -/
def parseTestCase (tcn : XNode) : TestCase :=
  let base : TestCase :=
    { classname := nodeAttr tcn "classname"
      name := nodeAttr tcn "name"
      time := jsParseFloat (stringOrDefault (nodeAttr tcn "time") "0")
      status := "passed" }
  match elemQuerySelector "failure" tcn with
  | some f =>
      { base with
        status := "failed"
        message := some (nodeAttr f "message")
        details := if xText f = "" then none else some (jsTrim (xText f)) }
  | none =>
    match elemQuerySelector "error" tcn with
    | some e =>
        { base with
          status := "error"
          message := some (nodeAttr e "message")
          details := if xText e = "" then none else some (jsTrim (xText e)) }
    | none =>
      match elemQuerySelector "skipped" tcn with
      | some sk =>
          { base with
            status := "skipped"
            message := some (nodeAttr sk "message") }
      | none => base

/-- `DeviceManager.parseTestReport` (`devices.js` 88-148), applied to the
already-DOM-parsed document.  Returns `none` when the document has no
`testsuite` element. -/
def parseTestReport (doc : XNode) : Option TestReport :=
  match docQuerySelector "testsuite" doc with
  | none => none
  | some ts =>
      some (
      let tests := jsParseInt (stringOrDefault (nodeAttr ts "tests") "0")
      let failures := jsParseInt (stringOrDefault (nodeAttr ts "failures") "0")
      let errors := jsParseInt (stringOrDefault (nodeAttr ts "errors") "0")
      let skipped := jsParseInt (stringOrDefault (nodeAttr ts "skipped") "0")
      let fw : Option (Option String) :=
        (collectElems "property" doc).foldl
          (fun acc p =>
            if nodeAttr p "name" = some "firmware_version" then some (nodeAttr p "value")
            else acc)
          none
      { tests := tests
        failures := failures
        errors := errors
        skipped := skipped
        time := jsParseFloat (stringOrDefault (nodeAttr ts "time") "0")
        timestamp := nodeAttr ts "timestamp"
        firmware_version := fw
        passed := jsSub (jsSub (jsSub tests failures) errors) skipped
        testcases := (collectElems "testcase" doc).map parseTestCase })

/-- A device entry: the inventory fields used by the core, plus the
attached report (`none` both before a report arrives and when its fetch or
parse failed). -/
structure Device where
  device : String
  name : Option String := none
  version_name : String := ""
  target : Option String := none
  proxy : Option String := none
  status : Option String := none
  report : Option TestReport := none
deriving Repr, DecidableEq

/-- The aggregate statistics record built by `updateStats`.  The test-count
fields are JS numbers (NaN-able, since report counts can be NaN). -/
structure AggregateStats where
  total : Nat
  online : Nat
  totalTests : JsInt
  passed : JsInt
  failed : JsInt
  skipped : JsInt
deriving Repr, DecidableEq

/-- The accumulation step of `updateStats` (`devices.js` 163-170): a device
with a report adds its counts, one without is skipped. -/
def statsStep (s : AggregateStats) (d : Device) : AggregateStats :=
  match d.report with
  | some r =>
      { s with
        totalTests := jsAdd s.totalTests r.tests
        passed := jsAdd s.passed r.passed
        failed := jsAdd s.failed (jsAdd r.failures r.errors)
        skipped := jsAdd s.skipped r.skipped }
  | none => s

/-- The statistics computation of `DeviceManager.updateStats`
(`devices.js` 153-170); the DOM rendering below it is presentation and out
of scope. -/
def updateStats (devices : List Device) : AggregateStats :=
  let init : AggregateStats :=
    { total := devices.length
      online := (devices.filter (fun d => d.status = some "online")).length
      totalTests := some 0
      passed := some 0
      failed := some 0
      skipped := some 0 }
  devices.foldl statsStep init

/-- `sub` occurs in `l` as a contiguous substring (JS `String.includes`,
on the underlying character lists). -/
def listInfix (sub : List Char) : List Char → Bool
  | [] => sub.isEmpty
  | c :: cs => sub.isPrefixOf (c :: cs) || listInfix sub cs

/-- JS `s.includes(sub)`. -/
def jsIncludes (s sub : String) : Bool :=
  listInfix sub.data s.data

/-- The search predicate of `filterDevices` (`devices.js` 240-243):
`device.device.toLowerCase().includes(term) || (device.name &&
device.name.toLowerCase().includes(term))`.  A `null` name and an empty
name are both falsy, short-circuiting the second disjunct. -/
def matchesSearch (d : Device) (searchTerm : String) : Bool :=
  jsIncludes (jsToLower d.device) (jsToLower searchTerm) ||
    (match d.name with
     | none => false
     | some n => n ≠ "" && jsIncludes (jsToLower n) (jsToLower searchTerm))

/-- The status predicate of `filterDevices` (`devices.js` 246-250):
`filterType === "all" || (filterType === "failed" && device.report &&
(failures > 0 || errors > 0))`. -/
def matchesFilter (d : Device) (filterType : String) : Bool :=
  filterType = "all" ||
    (filterType = "failed" &&
      match d.report with
      | some r => jsGt0 r.failures || jsGt0 r.errors
      | none => false)

/-- The filtering core of `DeviceManager.filterDevices` (`devices.js`
238-253): keep the devices matching both predicates, in order. -/
def filterDevices (devices : List Device) (searchTerm filterType : String) :
    List Device :=
  devices.filter (fun d => matchesSearch d searchTerm && matchesFilter d filterType)

/-- Outcome of one device's `report.xml` fetch: a non-ok HTTP response, a
thrown transport error, or a body that DOM-parses to the given document. -/
inductive FetchOutcome where
  | httpError
  | transportError
  | ok (doc : XNode)

/-- The per-device body of `loadDevices` (`devices.js` 40-59): failures set
`report` to `null`; a fetched body goes through `parseTestReport`. -/
def processDevice (d : Device) (o : FetchOutcome) : Device :=
  match o with
  | .httpError => { d with report := none }
  | .transportError => { d with report := none }
  | .ok doc => { d with report := parseTestReport doc }

/-- The load orchestration of `loadDevices` (`devices.js` 24-83) on the
data level: a failed inventory fetch is fatal (propagated), otherwise every
device is processed with its own fetch outcome and the whole list is
returned.  (The concurrent fan-out is order-insensitive, so its settled
result is this per-entry map.) -/
def loadDevices (inventory : Except String (List (Device × FetchOutcome))) :
    Except String (List Device) :=
  match inventory with
  | .error e => .error e
  | .ok entries => .ok (entries.map (fun p => processDevice p.1 p.2))

/-! ## Spec-side definitions

These definitions follow the wording of the specification (not the code);
the theorems below compare the code-derived functions against them. -/

/-- Spec §4.1, per count attribute: the parsed field is 0 when the
attribute is absent (or empty, which `getAttribute` can also report), the
attribute's parsed integer value when it parses, and NaN when it is
present, non-empty and unparseable. -/
def countSpec (a : Option String) (v : JsInt) : Prop :=
  (a = none → v = some 0) ∧
  (a = some "" → v = some 0) ∧
  (∀ s n, a = some s → jsParseInt s = some n → v = some n) ∧
  (∀ s, a = some s → s ≠ "" → jsParseInt s = none → v = none)

/-- Spec §4.1 for the `time` attribute, analogously with `parseFloat`. -/
def timeSpec (a : Option String) (v : JsFloat) : Prop :=
  (a = none → v = JsFloat.num 0) ∧
  (a = some "" → v = JsFloat.num 0) ∧
  (∀ s, a = some s → s ≠ "" → v = jsParseFloat s)

/-- A count attribute is "absent or numeric": after the `|| "0"` default it
parses to an actual integer, not NaN. -/
def countOk (a : Option String) : Prop :=
  (jsParseInt (stringOrDefault a "0")).isSome = true

/-- Sum of a list of JS numbers (NaN-propagating). -/
def jsSum (l : List JsInt) : JsInt :=
  l.foldr jsAdd (some 0)

/-- Spec §4.4 search predicate: the identifier or the display name contains
the term as a case-insensitive substring (the empty term is a substring of
everything, hence matches all). -/
def specMatchesSearch (d : Device) (term : String) : Bool :=
  jsIncludes (jsToLower d.device) (jsToLower term) ||
    (match d.name with
     | some n => jsIncludes (jsToLower n) (jsToLower term)
     | none => false)

/-- Spec §4.4 type predicate: `"all"` imposes no condition; `"failed"`
requires a non-null report with `failures > 0` or `errors > 0`. -/
def specMatchesType (d : Device) (ty : String) : Bool :=
  if ty = "all" then true
  else if ty = "failed" then
    match d.report with
    | some r => jsGt0 r.failures || jsGt0 r.errors
    | none => false
  else false

/-- A per-device report fetch attempt counts as failed: non-success
response, transport error, or a body in which the parser finds no report. -/
def reportFetchFailed : FetchOutcome → Prop
  | .httpError => True
  | .transportError => True
  | .ok doc => parseTestReport doc = none

/-- Spec §4.1 status tie-break, per test case: `failure` over `error` over
`skipped` over `passed`, first match wins, where a marker is "present" when
the test case element has a descendant element with that tag. -/
def statusSpec (tcEl : XNode) (tc : TestCase) : Prop :=
  tc.status =
    (if (elemQuerySelector "failure" tcEl).isSome then "failed"
     else if (elemQuerySelector "error" tcEl).isSome then "error"
     else if (elemQuerySelector "skipped" tcEl).isSome then "skipped"
     else "passed")

/-- Spec §4.1 message/details extraction, per test case, amended to what
the code does: both come only from the matched marker element; for
`failure` and `error` markers, `details` is the trimmed text content and
is omitted exactly when the raw text content is empty (a whitespace-only
text yields `details = ""`); for `skipped` markers and for passed cases,
`details` is never set. -/
def markerSpec (tcEl : XNode) (tc : TestCase) : Prop :=
  (∀ f, elemQuerySelector "failure" tcEl = some f →
     tc.message = some (nodeAttr f "message") ∧
     (xText f = "" → tc.details = none) ∧
     (xText f ≠ "" → tc.details = some (jsTrim (xText f)))) ∧
  (elemQuerySelector "failure" tcEl = none →
    (∀ e, elemQuerySelector "error" tcEl = some e →
       tc.message = some (nodeAttr e "message") ∧
       (xText e = "" → tc.details = none) ∧
       (xText e ≠ "" → tc.details = some (jsTrim (xText e)))) ∧
    (elemQuerySelector "error" tcEl = none →
      (∀ sk, elemQuerySelector "skipped" tcEl = some sk →
         tc.message = some (nodeAttr sk "message") ∧ tc.details = none) ∧
      (elemQuerySelector "skipped" tcEl = none →
        tc.message = none ∧ tc.details = none)))

/-! ## Concrete inputs used by witnesses and counterexamples -/

/-- A suite whose `tests` attribute parses and whose `failures` attribute
is garbage. -/
def exDocC1w : XNode := .elem "testsuite" [("tests", "7"), ("failures", "oops")] []

/-- A suite whose `tests` attribute is non-numeric. -/
def exDocC1c : XNode := .elem "testsuite" [("tests", "abc")] []

/-- A suite with internally consistent numeric counts. -/
def exDocC2w : XNode :=
  .elem "testsuite" [("tests", "5"), ("failures", "1"), ("skipped", "1")] []

/-- An empty suite: no attributes, no test cases. -/
def exDocC3w : XNode := .elem "testsuite" [] []

/-- A suite with a count attribute but no test cases. -/
def exDocC3c : XNode := .elem "testsuite" [("tests", "5")] []

/-- A well-formed report body for one C4 device. -/
def exDocC4ok : XNode := .elem "testsuite" [("tests", "2"), ("failures", "1")] []

/-- A body with no `testsuite` element (e.g. an HTML error page). -/
def exDocC4bad : XNode := .elem "html" [] [.text "not found"]

/-- Four inventory devices with mixed report-fetch outcomes. -/
def exEntriesC4 : List (Device × FetchOutcome) :=
  [({ device := "ar71xx-1", version_name := "v1" }, .httpError),
   ({ device := "mt7621-2", version_name := "v1" }, .ok exDocC4ok),
   ({ device := "x86-3", version_name := "v1" }, .ok exDocC4bad),
   ({ device := "bcm27xx-4", version_name := "v1" }, .transportError)]

/-- A report with one failure, for the C6 filter witness. -/
def exRepC6 : TestReport :=
  { tests := some 3, failures := some 1, errors := some 0, skipped := some 0
    time := JsFloat.num 0, timestamp := none, passed := some 2, testcases := [] }

/-- Devices for the C6 filter witness: one failing, one with no report,
one all-passed. -/
def exDevsC6 : List Device :=
  [{ device := "ar71xx-generic", name := some "TP-Link Archer"
     status := some "online", report := some exRepC6 },
   { device := "mt7621-ramips" },
   { device := "x86-64", name := some "Generic PC"
     report := some { exRepC6 with failures := some 0, passed := some 3 } }]

/-- A test case carrying all three markers, `error` first in document
order. -/
def exDocC7w : XNode :=
  .elem "testsuite" [] [.elem "testcase" []
    [.elem "error" [] [], .elem "failure" [] [], .elem "skipped" [] []]]

/-- The report parsed from `exDocC7w`. -/
def exRepC7w : TestReport :=
  { tests := some 0, failures := some 0, errors := some 0, skipped := some 0
    time := JsFloat.num 0, timestamp := none, passed := some 0
    testcases := [{ classname := none, name := none, time := JsFloat.num 0
                    status := "failed", message := some none, details := none }] }

/-- Two `firmware_version` properties with different values. -/
def exDocC8 : XNode :=
  .elem "testsuite" [] [.elem "properties" []
    [.elem "property" [("name", "firmware_version"), ("value", "A")] [],
     .elem "property" [("name", "firmware_version"), ("value", "B")] []]]

/-- The report parsed from `exDocC8`. -/
def exRepC8 : TestReport :=
  { tests := some 0, failures := some 0, errors := some 0, skipped := some 0
    time := JsFloat.num 0, timestamp := none, firmware_version := some (some "B")
    passed := some 0, testcases := [] }

/-- A failing test case whose failure text is whitespace only. -/
def exDocC9c : XNode :=
  .elem "testsuite" [] [.elem "testcase" [("name", "t")]
    [.elem "failure" [("message", "m")] [.text "  "]]]

/-- A test case with a failure marker (with text) and a skipped marker. -/
def exDocC9w : XNode :=
  .elem "testsuite" [] [.elem "testcase" [("name", "t")]
    [.elem "failure" [("message", "m")] [.text " oops "],
     .elem "skipped" [] [.text "why"]]]

/-- The report parsed from `exDocC9w`. -/
def exRepC9w : TestReport :=
  { tests := some 0, failures := some 0, errors := some 0, skipped := some 0
    time := JsFloat.num 0, timestamp := none, passed := some 0
    testcases := [{ classname := none, name := some "t", time := JsFloat.num 0
                    status := "failed", message := some (some "m")
                    details := some "oops" }] }

/-- Devices for the C10 witness: the matching device has no name field. -/
def exDevsC10 : List Device :=
  [{ device := "AR71xx-Generic" }, { device := "x86-64" }]

/-! ## Helper lemmas -/

theorem jsAdd_assoc (a b c : JsInt) : jsAdd (jsAdd a b) c = jsAdd a (jsAdd b c) := by
  cases a <;> cases b <;> cases c <;> simp [jsAdd, Int.add_assoc]

theorem jsSum_cons (x : JsInt) (l : List JsInt) : jsSum (x :: l) = jsAdd x (jsSum l) := rfl

theorem listInfix_nil_left (l : List Char) : listInfix [] l = true := by
  induction l with
  | nil => rfl
  | cons c cs ih => simp [listInfix]

theorem jsIncludes_empty (s : String) : jsIncludes s "" = true :=
  listInfix_nil_left s.data

theorem jsToLower_data (s : String) : (jsToLower s).data = s.data.map Char.toLower := rfl

theorem jsToLower_eq_empty_iff (s : String) : jsToLower s = "" ↔ s = "" := by
  constructor
  · intro h
    have hd : (jsToLower s).data = [] := by rw [h]
    rw [jsToLower_data, List.map_eq_nil_iff] at hd
    cases s with
    | mk data => cases hd; rfl
  · intro h
    rw [h]
    rfl

theorem jsParseInt_zero : jsParseInt "0" = some 0 := by decide

theorem jsParseInt_empty : jsParseInt "" = none := by decide

theorem jsParseFloat_zero : jsParseFloat "0" = JsFloat.num 0 := by decide

theorem countSpec_of_parse (a : Option String) :
    countSpec a (jsParseInt (stringOrDefault a "0")) := by
  refine ⟨?_, ?_, ?_, ?_⟩
  · intro h
    rw [h]
    exact jsParseInt_zero
  · intro h
    rw [h]
    simp [stringOrDefault, jsParseInt_zero]
  · intro s n hs hn
    rw [hs]
    by_cases hse : s = ""
    · rw [hse, jsParseInt_empty] at hn
      exact absurd hn (by simp)
    · simp [stringOrDefault, hse, hn]
  · intro s hs hne hn
    rw [hs]
    simp [stringOrDefault, hne, hn]

theorem timeSpec_of_parse (a : Option String) :
    timeSpec a (jsParseFloat (stringOrDefault a "0")) := by
  refine ⟨?_, ?_, ?_⟩
  · intro h
    rw [h]
    exact jsParseFloat_zero
  · intro h
    rw [h]
    simp [stringOrDefault, jsParseFloat_zero]
  · intro s hs hne
    rw [hs]
    simp [stringOrDefault, hne]

/-! ## C3 -/

/-- **C3 (amended).**  `parse` returns `null` exactly when the document has
no `testsuite` element.  A document with a `testsuite` element and no
`testcase` elements parses to a non-null report with an empty testcase
sequence; when in addition the four count attributes are absent, its
`tests` is 0 and its `passed` is 0.  (As frozen, the claim asserted
`tests = 0` for every zero-testcase document; a `tests="5"` attribute
refutes that, see the counterexample.) -/
theorem parse_none_iff_no_testsuite (doc : XNode) :
    (parseTestReport doc = none ↔ collectElems "testsuite" doc = []) ∧
    (∀ ts, docQuerySelector "testsuite" doc = some ts →
      collectElems "testcase" doc = [] →
      nodeAttr ts "tests" = none → nodeAttr ts "failures" = none →
      nodeAttr ts "errors" = none → nodeAttr ts "skipped" = none →
      ∃ r, parseTestReport doc = some r ∧
        r.tests = some 0 ∧ r.passed = some 0 ∧ r.testcases = []) := by
  constructor
  · rcases h : docQuerySelector "testsuite" doc with _ | ts
    · unfold docQuerySelector at h
      rw [List.head?_eq_none_iff] at h
      simp [parseTestReport, docQuerySelector, h]
    · unfold docQuerySelector at h
      constructor
      · intro hp
        rw [parseTestReport, docQuerySelector, h] at hp
        simp at hp
      · intro hnil
        rw [hnil] at h
        simp at h
  · intro ts hts hcase h1 h2 h3 h4
    simp only [parseTestReport, hts]
    refine ⟨_, rfl, ?_, ?_, ?_⟩
    · simp [h1, stringOrDefault, jsParseInt_zero]
    · simp [h1, h2, h3, h4, stringOrDefault, jsParseInt_zero, jsSub]
    · simp [hcase]

/-- Witness for C3: the empty suite `<testsuite/>` parses to `tests = 0`,
`passed = 0` and no test cases — not `null`. -/
theorem parse_none_iff_no_testsuite_witness :
    ∃ r, parseTestReport exDocC3w = some r ∧
      r.tests = some 0 ∧ r.passed = some 0 ∧ r.testcases = [] :=
  (parse_none_iff_no_testsuite exDocC3w).2 _ rfl rfl rfl rfl rfl rfl

/-- Counterexample to C3 as frozen: `<testsuite tests="5"/>` has a
`testsuite` element and zero testcase children, yet parses with
`tests = 5`, not `tests = 0`. -/
theorem parse_empty_suite_nonzero_tests_cex :
    (parseTestReport exDocC3c).map TestReport.tests = some (some 5) ∧
    (parseTestReport exDocC3c).map TestReport.testcases = some [] ∧
    (some (5 : Int) : JsInt) ≠ some 0 := by
  refine ⟨by decide, by decide, by decide⟩

/-! ## C1 -/

/-- **C1 (amended).**  For every document with a `testsuite` element, each
count field of the parsed report is 0 when its attribute is absent (or
empty), equals the attribute's parsed integer value when `parseInt`
succeeds on it, and is NaN — not 0 — when the attribute is present,
non-empty and non-numeric; `time` behaves the same way under `parseFloat`.
Parsing never fails on malformed counts (it always returns a report). -/
theorem parse_counts_default_and_nan (doc ts : XNode)
    (hts : docQuerySelector "testsuite" doc = some ts) :
    ∃ r, parseTestReport doc = some r ∧
      countSpec (nodeAttr ts "tests") r.tests ∧
      countSpec (nodeAttr ts "failures") r.failures ∧
      countSpec (nodeAttr ts "errors") r.errors ∧
      countSpec (nodeAttr ts "skipped") r.skipped ∧
      timeSpec (nodeAttr ts "time") r.time := by
  simp only [parseTestReport, hts]
  refine ⟨_, rfl, ?_, ?_, ?_, ?_, ?_⟩
  case _ => exact countSpec_of_parse (nodeAttr ts "tests")
  case _ => exact countSpec_of_parse (nodeAttr ts "failures")
  case _ => exact countSpec_of_parse (nodeAttr ts "errors")
  case _ => exact countSpec_of_parse (nodeAttr ts "skipped")
  case _ => exact timeSpec_of_parse (nodeAttr ts "time")

/-- Witness for C1: with `tests="7"` and `failures="oops"`, the parse
yields `tests = 7` and `failures = NaN`. -/
theorem parse_counts_default_and_nan_witness :
    ∃ r, parseTestReport exDocC1w = some r ∧
      countSpec (nodeAttr (XNode.elem "testsuite" [("tests", "7"), ("failures", "oops")] []) "tests") r.tests ∧
      countSpec (nodeAttr (XNode.elem "testsuite" [("tests", "7"), ("failures", "oops")] []) "failures") r.failures ∧
      countSpec (nodeAttr (XNode.elem "testsuite" [("tests", "7"), ("failures", "oops")] []) "errors") r.errors ∧
      countSpec (nodeAttr (XNode.elem "testsuite" [("tests", "7"), ("failures", "oops")] []) "skipped") r.skipped ∧
      timeSpec (nodeAttr (XNode.elem "testsuite" [("tests", "7"), ("failures", "oops")] []) "time") r.time :=
  parse_counts_default_and_nan exDocC1w _ rfl

/-- Counterexample to C1 as frozen: with the non-numeric attribute
`tests="abc"`, the parsed `tests` is NaN, not 0 — yet parsing still
returns a report. -/
theorem parse_counts_nonnumeric_cex :
    (parseTestReport exDocC1c).map TestReport.tests = some none ∧
    (some (none : Option Int) : Option JsInt) ≠ some (some 0) := by
  refine ⟨by decide, by decide⟩

/-! ## C2 -/

/-- **C2 (confirmed).**  When every count attribute of the `testsuite`
element is absent or numeric, the parsed report satisfies
`passed + failures + errors + skipped = tests` (in JS arithmetic, all
fields being actual integers). -/
theorem parse_passed_identity (doc ts : XNode)
    (hts : docQuerySelector "testsuite" doc = some ts)
    (h1 : countOk (nodeAttr ts "tests")) (h2 : countOk (nodeAttr ts "failures"))
    (h3 : countOk (nodeAttr ts "errors")) (h4 : countOk (nodeAttr ts "skipped")) :
    ∃ r, parseTestReport doc = some r ∧
      jsAdd (jsAdd (jsAdd r.passed r.failures) r.errors) r.skipped = r.tests := by
  simp only [parseTestReport, hts]
  refine ⟨_, rfl, ?_⟩
  rw [countOk, Option.isSome_iff_exists] at h1 h2 h3 h4
  obtain ⟨t, ht⟩ := h1
  obtain ⟨f, hf⟩ := h2
  obtain ⟨e, he⟩ := h3
  obtain ⟨s, hs⟩ := h4
  simp only [ht, hf, he, hs, jsSub, jsAdd]
  congr 1
  ring

/-- Witness for C2 on `<testsuite tests="5" failures="1" skipped="1">`:
`3 + 1 + 0 + 1 = 5`. -/
theorem parse_passed_identity_witness :
    ∃ r, parseTestReport exDocC2w = some r ∧
      jsAdd (jsAdd (jsAdd r.passed r.failures) r.errors) r.skipped = r.tests :=
  parse_passed_identity exDocC2w _ rfl rfl rfl rfl rfl

/-! ## C7 -/

/-- The testcase list of a parsed report is the document-order testcase
elements mapped through `parseTestCase`. -/
theorem testcases_eq_map (doc : XNode) (r : TestReport)
    (hr : parseTestReport doc = some r) :
    r.testcases = (collectElems "testcase" doc).map parseTestCase := by
  rcases h : docQuerySelector "testsuite" doc with _ | ts
  · rw [parseTestReport, h] at hr
    exact absurd hr (by simp)
  · rw [parseTestReport, h] at hr
    injection hr with hr
    rw [← hr]

/-- **C7 (confirmed).**  Every parsed test case's status follows the fixed
first-match order `failure`, `error`, `skipped`, `passed`, even when
several marker elements are present. -/
theorem testcase_status_precedence (doc : XNode) (r : TestReport)
    (hr : parseTestReport doc = some r) :
    List.Forall₂ statusSpec (collectElems "testcase" doc) r.testcases := by
  rw [testcases_eq_map doc r hr, List.forall₂_map_right_iff, List.forall₂_same]
  intro tcEl _
  rcases hf : elemQuerySelector "failure" tcEl with _ | f
  · rcases he : elemQuerySelector "error" tcEl with _ | e
    · rcases hsk : elemQuerySelector "skipped" tcEl with _ | sk
      · simp [statusSpec, parseTestCase, hf, he, hsk]
      · simp [statusSpec, parseTestCase, hf, he, hsk]
    · simp [statusSpec, parseTestCase, hf, he]
  · simp [statusSpec, parseTestCase, hf]

/-- Witness for C7: a test case containing `error`, `failure` and
`skipped` markers (in that document order) parses with status `failed`. -/
theorem testcase_status_precedence_witness :
    parseTestReport exDocC7w = some exRepC7w ∧
    List.Forall₂ statusSpec (collectElems "testcase" exDocC7w) exRepC7w.testcases :=
  ⟨by decide, testcase_status_precedence exDocC7w exRepC7w (by decide)⟩

/-! ## C9 -/

/-- **C9 (amended).**  Message and details of a parsed test case come only
from the matched marker element; for `failure`/`error` markers the details
are the trimmed text content, omitted exactly when the raw text content is
empty — so a whitespace-only text yields a present, empty `details`, and a
`skipped` marker never yields details.  (As frozen, the claim said details
are omitted whenever the *trimmed* text is empty and implied the `skipped`
marker also contributes details; both fail, see the counterexample.) -/
theorem testcase_message_details_from_marker (doc : XNode) (r : TestReport)
    (hr : parseTestReport doc = some r) :
    List.Forall₂ markerSpec (collectElems "testcase" doc) r.testcases := by
  rw [testcases_eq_map doc r hr, List.forall₂_map_right_iff, List.forall₂_same]
  intro tcEl _
  rcases hf : elemQuerySelector "failure" tcEl with _ | f
  · rcases he : elemQuerySelector "error" tcEl with _ | e
    · rcases hsk : elemQuerySelector "skipped" tcEl with _ | sk
      · refine ⟨by simp [hf], fun _ => ⟨by simp [he], fun _ => ⟨by simp [hsk], fun _ => ?_⟩⟩⟩
        simp [parseTestCase, hf, he, hsk]
      · refine ⟨by simp [hf], fun _ => ⟨by simp [he], fun _ => ⟨?_, by simp [hsk]⟩⟩⟩
        intro sk' hsk'
        rw [hsk] at hsk'
        injection hsk' with hsk'
        subst hsk'
        simp [parseTestCase, hf, he, hsk]
    · refine ⟨by simp [hf], fun _ => ⟨?_, by simp [he]⟩⟩
      intro e' he'
      rw [he] at he'
      injection he' with he'
      subst he'
      refine ⟨by simp [parseTestCase, hf, he], ?_, ?_⟩
      · intro hx
        simp [parseTestCase, hf, he, hx]
      · intro hx
        simp [parseTestCase, hf, he, hx]
  · refine ⟨?_, by simp [hf]⟩
    intro f' hf'
    rw [hf] at hf'
    injection hf' with hf'
    subst hf'
    refine ⟨by simp [parseTestCase, hf], ?_, ?_⟩
    · intro hx
      simp [parseTestCase, hf, hx]
    · intro hx
      simp [parseTestCase, hf, hx]

/-- Witness for C9: a failure marker with text `" oops "` yields
`message = "m"` and `details = "oops"`, while the skipped marker's text is
ignored. -/
theorem testcase_message_details_from_marker_witness :
    parseTestReport exDocC9w = some exRepC9w ∧
    List.Forall₂ markerSpec (collectElems "testcase" exDocC9w) exRepC9w.testcases :=
  ⟨by decide, testcase_message_details_from_marker exDocC9w exRepC9w (by decide)⟩

/-- Counterexample to C9 as frozen: a failure marker whose text content is
whitespace only parses with `details` present and equal to `""`, although
the trimmed text is empty and the claim says `details` is omitted then. -/
theorem testcase_details_whitespace_cex :
    (parseTestReport exDocC9c).map (fun r => r.testcases.map TestCase.details)
        = some [some ""] ∧
    (some "" : Option String) ≠ none := by
  refine ⟨by decide, by decide⟩

/-! ## C8 -/

/-- A right fold that overwrites the accumulator at every element
satisfying `p` returns the first match. -/
theorem foldr_overwrite {α β : Type} (p : α → Prop) [DecidablePred p] (g : α → β)
    (l : List α) (init : Option β) :
    l.foldr (fun x acc => if p x then some (g x) else acc) init
      = match l.find? (fun x => decide (p x)) with
        | some x => some (g x)
        | none => init := by
  induction l with
  | nil => rfl
  | cons x xs ih =>
    by_cases hx : p x
    · simp [List.find?_cons, hx]
    · simp [List.find?_cons, hx, ih]

/-- A left fold that overwrites the accumulator at every element
satisfying `p` returns the last match. -/
theorem foldl_overwrite {α β : Type} (p : α → Prop) [DecidablePred p] (g : α → β)
    (l : List α) (init : Option β) :
    l.foldl (fun acc x => if p x then some (g x) else acc) init
      = match l.reverse.find? (fun x => decide (p x)) with
        | some x => some (g x)
        | none => init := by
  have h := List.foldl_reverse (l := l.reverse)
    (f := fun (acc : Option β) x => if p x then some (g x) else acc) (b := init)
  rw [List.reverse_reverse] at h
  rw [h]
  exact foldr_overwrite p g l.reverse init

/-- **C8 (amended).**  The parsed `firmware_version` is the `value`
attribute of the **last** `<property name="firmware_version">` in document
order (the loop overwrites the field on every match); the field is absent
when there is no such property.  (As frozen, the claim said the *first*
such property wins; two properties with different values refute that, see
the counterexample.) -/
theorem firmware_version_last_property (doc : XNode) (r : TestReport)
    (hr : parseTestReport doc = some r) :
    r.firmware_version =
      ((collectElems "property" doc).reverse.find?
          (fun p => decide (nodeAttr p "name" = some "firmware_version"))).map
        (fun p => nodeAttr p "value") := by
  rcases h : docQuerySelector "testsuite" doc with _ | ts
  · rw [parseTestReport, h] at hr
    exact absurd hr (by simp)
  · rw [parseTestReport, h] at hr
    injection hr with hr
    rw [← hr]
    show (collectElems "property" doc).foldl
        (fun acc p => if nodeAttr p "name" = some "firmware_version"
                      then some (nodeAttr p "value") else acc) none = _
    rw [foldl_overwrite]
    rcases (collectElems "property" doc).reverse.find?
        (fun p => decide (nodeAttr p "name" = some "firmware_version")) with _ | p
    · rfl
    · rfl

/-- Witness for C8: with properties valued `"A"` then `"B"`, the parsed
`firmware_version` is `"B"`, the last one. -/
theorem firmware_version_last_property_witness :
    parseTestReport exDocC8 = some exRepC8 ∧
    exRepC8.firmware_version =
      ((collectElems "property" exDocC8).reverse.find?
          (fun p => decide (nodeAttr p "name" = some "firmware_version"))).map
        (fun p => nodeAttr p "value") :=
  ⟨by decide, firmware_version_last_property exDocC8 exRepC8 (by decide)⟩

/-- Counterexample to C8 as frozen: the first matching property has value
`"A"`, but the parse reports `"B"` (the last one). -/
theorem firmware_version_first_property_cex :
    (parseTestReport exDocC8).map TestReport.firmware_version
        = some (some (some "B")) ∧
    (some (some (some "B")) : Option (Option (Option String)))
        ≠ some (some (some "A")) := by
  refine ⟨by decide, by decide⟩

/-! ## C5 -/

theorem jsAdd_zero_left (a : JsInt) : jsAdd (some 0) a = a := by
  cases a <;> simp [jsAdd]

theorem jsAdd_zero_right (a : JsInt) : jsAdd a (some 0) = a := by
  cases a <;> simp [jsAdd]

theorem statsStep_keeps_total (s : AggregateStats) (d : Device) :
    (statsStep s d).total = s.total := by
  cases hd : d.report <;> simp [statsStep, hd]

theorem statsStep_keeps_online (s : AggregateStats) (d : Device) :
    (statsStep s d).online = s.online := by
  cases hd : d.report <;> simp [statsStep, hd]

theorem foldl_statsStep_total (devices : List Device) :
    ∀ init, (devices.foldl statsStep init).total = init.total := by
  induction devices with
  | nil => intro init; rfl
  | cons d ds ih =>
    intro init
    rw [List.foldl_cons, ih, statsStep_keeps_total]

theorem foldl_statsStep_online (devices : List Device) :
    ∀ init, (devices.foldl statsStep init).online = init.online := by
  induction devices with
  | nil => intro init; rfl
  | cons d ds ih =>
    intro init
    rw [List.foldl_cons, ih, statsStep_keeps_online]

theorem foldl_statsStep_counts (devices : List Device) :
    ∀ init,
      (devices.foldl statsStep init).totalTests
          = jsAdd init.totalTests
              (jsSum (devices.filterMap (fun d => d.report.map TestReport.tests))) ∧
      (devices.foldl statsStep init).passed
          = jsAdd init.passed
              (jsSum (devices.filterMap (fun d => d.report.map TestReport.passed))) ∧
      (devices.foldl statsStep init).failed
          = jsAdd init.failed
              (jsSum (devices.filterMap
                (fun d => d.report.map (fun r => jsAdd r.failures r.errors)))) ∧
      (devices.foldl statsStep init).skipped
          = jsAdd init.skipped
              (jsSum (devices.filterMap (fun d => d.report.map TestReport.skipped))) := by
  induction devices with
  | nil =>
    intro init
    refine ⟨?_, ?_, ?_, ?_⟩ <;> simp [jsSum, jsAdd_zero_right]
  | cons d ds ih =>
    intro init
    rcases hd : d.report with _ | rep
    · simp only [List.foldl_cons, statsStep, hd, List.filterMap_cons]
      exact ih init
    · obtain ⟨ih1, ih2, ih3, ih4⟩ :=
        ih { init with
              totalTests := jsAdd init.totalTests rep.tests
              passed := jsAdd init.passed rep.passed
              failed := jsAdd init.failed (jsAdd rep.failures rep.errors)
              skipped := jsAdd init.skipped rep.skipped }
      simp only [List.foldl_cons, statsStep, hd, List.filterMap_cons, Option.map_some]
      refine ⟨?_, ?_, ?_, ?_⟩
      · rw [ih1]; simp [jsSum_cons, jsAdd_assoc]
      · rw [ih2]; simp [jsSum_cons, jsAdd_assoc]
      · rw [ih3]; simp [jsSum_cons, jsAdd_assoc]
      · rw [ih4]; simp [jsSum_cons, jsAdd_assoc]

/-- **C5 (confirmed).**  The statistics computation is a total function of
the device list: `total` is the list length, `online` counts the devices
with status `"online"`, and the four test-count fields are the
(NaN-propagating) sums of `tests`, `passed`, `failures + errors`, and
`skipped` over the devices that have a report — devices with a `null`
report contribute to `total`/`online` only.  On the empty list every field
is zero. -/
theorem updateStats_spec (devices : List Device) :
    (updateStats devices).total = devices.length ∧
    (updateStats devices).online
        = devices.countP (fun d => decide (d.status = some "online")) ∧
    (updateStats devices).totalTests
        = jsSum (devices.filterMap (fun d => d.report.map TestReport.tests)) ∧
    (updateStats devices).passed
        = jsSum (devices.filterMap (fun d => d.report.map TestReport.passed)) ∧
    (updateStats devices).failed
        = jsSum (devices.filterMap
            (fun d => d.report.map (fun r => jsAdd r.failures r.errors))) ∧
    (updateStats devices).skipped
        = jsSum (devices.filterMap (fun d => d.report.map TestReport.skipped)) ∧
    updateStats [] = { total := 0, online := 0, totalTests := some 0
                       passed := some 0, failed := some 0, skipped := some 0 } := by
  obtain ⟨h1, h2, h3, h4⟩ := foldl_statsStep_counts devices
    { total := devices.length
      online := (devices.filter (fun d => d.status = some "online")).length
      totalTests := some 0
      passed := some 0
      failed := some 0
      skipped := some 0 }
  refine ⟨?_, ?_, ?_, ?_, ?_, ?_, rfl⟩
  · exact foldl_statsStep_total devices _
  · rw [updateStats, foldl_statsStep_online]
    exact (List.countP_eq_length_filter _ _).symm
  · rw [updateStats, h1, jsAdd_zero_left]
  · rw [updateStats, h2, jsAdd_zero_left]
  · rw [updateStats, h3, jsAdd_zero_left]
  · rw [updateStats, h4, jsAdd_zero_left]

/-! ## C6 -/

theorem string_data_eq_nil_iff (s : String) : s.data = [] ↔ s = "" := by
  constructor
  · intro h
    cases s with
    | mk d => cases h; rfl
  · intro h
    rw [h]

theorem jsIncludes_empty_left (sub : String) : jsIncludes "" sub = sub.data.isEmpty := rfl

theorem jsToLower_empty : jsToLower "" = "" := rfl

/-- The code's search predicate (with its JS truthiness guard on `name`)
agrees with the spec's predicate on every device and term. -/
theorem matchesSearch_eq_spec (d : Device) (term : String) :
    matchesSearch d term = specMatchesSearch d term := by
  rcases hn : d.name with _ | n
  · simp [matchesSearch, specMatchesSearch, hn]
  · by_cases hne : n = ""
    · subst hne
      by_cases ht : term = ""
      · subst ht
        simp [matchesSearch, specMatchesSearch, hn, jsToLower_empty, jsIncludes_empty]
      · have hlow : jsToLower term ≠ "" := fun h => ht ((jsToLower_eq_empty_iff term).1 h)
        have hdata : (jsToLower term).data ≠ [] :=
          fun h => hlow ((string_data_eq_nil_iff _).1 h)
        have hinc : jsIncludes "" (jsToLower term) = false := by
          rw [jsIncludes_empty_left]
          cases hd : (jsToLower term).data with
          | nil => exact absurd hd hdata
          | cons c cs => rfl
        simp [matchesSearch, specMatchesSearch, hn, jsToLower_empty, hinc]
    · simp [matchesSearch, specMatchesSearch, hn, hne]

/-- The code's type predicate agrees with the spec's on the two defined
filter types. -/
theorem matchesFilter_eq_spec (d : Device) (ty : String)
    (hty : ty = "all" ∨ ty = "failed") :
    matchesFilter d ty = specMatchesType d ty := by
  rcases hty with h | h <;> subst h <;> simp [matchesFilter, specMatchesType]

/-- **C6 (confirmed).**  For the filter types `"all"` and `"failed"`, the
filtered list is exactly the devices satisfying the spec's search
predicate (case-insensitive substring of identifier or display name, empty
term matches all) and the spec's type predicate (`"all"`: no condition;
`"failed"`: non-null report with `failures > 0` or `errors > 0`, so a
device with a `null` report never matches), in the original relative
order. -/
theorem filterDevices_spec (devices : List Device) (term ty : String)
    (hty : ty = "all" ∨ ty = "failed") :
    filterDevices devices term ty
        = devices.filter (fun d => specMatchesSearch d term && specMatchesType d ty) ∧
    (filterDevices devices term ty).Sublist devices ∧
    ∀ d, d ∈ filterDevices devices term ty ↔
      d ∈ devices ∧ specMatchesSearch d term = true ∧ specMatchesType d ty = true := by
  have heq : filterDevices devices term ty
      = devices.filter (fun d => specMatchesSearch d term && specMatchesType d ty) := by
    unfold filterDevices
    refine List.filter_congr (fun d _ => ?_)
    rw [matchesSearch_eq_spec, matchesFilter_eq_spec d ty hty]
  refine ⟨heq, ?_, ?_⟩
  · unfold filterDevices
    exact List.filter_sublist devices
  · intro d
    rw [heq, List.mem_filter, Bool.and_eq_true]

/-- Witness for C6 on three concrete devices with `filterType = "failed"`:
only the failing device survives, in place. -/
theorem filterDevices_spec_witness :
    filterDevices exDevsC6 "" "failed"
        = exDevsC6.filter (fun d => specMatchesSearch d "" && specMatchesType d "failed") ∧
    (filterDevices exDevsC6 "" "failed").Sublist exDevsC6 :=
  ⟨(filterDevices_spec exDevsC6 "" "failed" (Or.inr rfl)).1,
   (filterDevices_spec exDevsC6 "" "failed" (Or.inr rfl)).2.1⟩

/-! ## C10 -/

/-- **C10 (confirmed).**  A device whose `name` is absent is matched on
its identifier alone: filtering is total (the JS truthiness guard
short-circuits the name branch instead of dereferencing `null`), and such
a device is kept exactly when its identifier contains the term
case-insensitively and the type condition holds. -/
theorem filter_null_name_uses_identifier (devices : List Device)
    (term ty : String) (d : Device) (hname : d.name = none) :
    matchesSearch d term = jsIncludes (jsToLower d.device) (jsToLower term) ∧
    (d ∈ filterDevices devices term ty ↔
      d ∈ devices ∧ jsIncludes (jsToLower d.device) (jsToLower term) = true ∧
        matchesFilter d ty = true) := by
  have hs : matchesSearch d term = jsIncludes (jsToLower d.device) (jsToLower term) := by
    simp [matchesSearch, hname]
  refine ⟨hs, ?_⟩
  unfold filterDevices
  rw [List.mem_filter, Bool.and_eq_true, hs]

/-- Witness for C10: a nameless device is found by a case-insensitive
identifier search. -/
theorem filter_null_name_uses_identifier_witness :
    matchesSearch { device := "AR71xx-Generic" } "ar71"
        = jsIncludes (jsToLower "AR71xx-Generic") (jsToLower "ar71") ∧
    (({ device := "AR71xx-Generic" } : Device) ∈ filterDevices exDevsC10 "ar71" "all" ↔
      ({ device := "AR71xx-Generic" } : Device) ∈ exDevsC10 ∧
        jsIncludes (jsToLower "AR71xx-Generic") (jsToLower "ar71") = true ∧
        matchesFilter { device := "AR71xx-Generic" } "all" = true) :=
  filter_null_name_uses_identifier exDevsC10 "ar71" "all" { device := "AR71xx-Generic" } rfl

/-! ## C4 -/

/-- **C4 (confirmed).**  When the inventory fetch succeeds, the load
resolves successfully with exactly the inventory devices, each processed
from its own report-fetch outcome only: the list length is preserved, the
`i`-th result is a function of the `i`-th entry alone (so one device's
failure cannot alter another's report), the device identifier is kept, and
a failed fetch (non-ok response, transport error, or a body with no
parseable report) leaves that device's `report` as `null`. -/
theorem loadDevices_isolates_failures (entries : List (Device × FetchOutcome))
    (i : Nat) (hi : i < entries.length) :
    loadDevices (.ok entries) = .ok (entries.map (fun p => processDevice p.1 p.2)) ∧
    (entries.map (fun p => processDevice p.1 p.2)).length = entries.length ∧
    (entries.map (fun p => processDevice p.1 p.2))[i]?
        = some (processDevice (entries.get ⟨i, hi⟩).1 (entries.get ⟨i, hi⟩).2) ∧
    (processDevice (entries.get ⟨i, hi⟩).1 (entries.get ⟨i, hi⟩).2).device
        = (entries.get ⟨i, hi⟩).1.device ∧
    (reportFetchFailed (entries.get ⟨i, hi⟩).2 →
      (processDevice (entries.get ⟨i, hi⟩).1 (entries.get ⟨i, hi⟩).2).report = none) := by
  refine ⟨rfl, List.length_map _ _, ?_, ?_, ?_⟩
  · rw [List.getElem?_map, List.getElem?_eq_getElem hi]
    rfl
  · rcases (entries.get ⟨i, hi⟩).2 with _ | _ | doc <;> rfl
  · intro hfail
    rcases ho : (entries.get ⟨i, hi⟩).2 with _ | _ | doc
    · rfl
    · rfl
    · rw [ho] at hfail
      simp [processDevice, reportFetchFailed] at hfail ⊢
      exact hfail

/-- Witness for C4 on four devices (404, good report, unparseable body,
transport error): the load resolves, and exactly the one good report is
attached. -/
theorem loadDevices_isolates_failures_witness :
    loadDevices (.ok exEntriesC4) = .ok (exEntriesC4.map (fun p => processDevice p.1 p.2)) ∧
    (exEntriesC4.map (fun p => processDevice p.1 p.2)).map Device.report
        = [none,
         some { tests := some 2, failures := some 1, errors := some 0, skipped := some 0
                time := JsFloat.num 0, timestamp := none, passed := some 1, testcases := [] },
         none, none] :=
  ⟨(loadDevices_isolates_failures exEntriesC4 0 (by decide)).1, by decide⟩
